import Mathlib

/-!
# Pythia8 `Info`: bookkeeping contract of the event-information class

A shallow embedding of `class Info` (include/Info.h) and proofs about its
reset, setter and accessor behaviour.

Modelling conventions.

* `double` is an arbitrary carrier type `D` with the constants `0`, `1` and a
  multiplication; the class only stores, copies and multiplies such values.
  Equality of two `D` values is identity of the stored value.
* `int` and `long` values are integers (`Int`).  The only `int` arithmetic of
  the header (`2 + nFinalSave`, `counters[i] += value`) is reduced to the
  32-bit two's complement range by `wrapInt`.
* `std::string` is `String`, `std::vector<T>` is `List T` (`push_back` appends
  at the end, `resize(0)` is the empty list), `int counters[50]` is a function
  on `Fin 50`, `std::map<string,int>` is an association list with unique keys.
* `operator[]` on a vector or array is only defined inside the bounds; an
  access outside them is reported as `none`.
* Member functions become functions on the state; a setter returns the new
  state.  Overloaded setters whose name coincides with the getter
  (`hasHistory`, `zNowISR`, `pT2NowISR`, `a0MI`) get the setter name
  `set...`.  Default arguments of the C++ signatures are recorded in the
  comments; the Lean functions take every argument explicitly.
* The accessors `y`, `QFac`, `QRen`, `mHat` (logarithm, square root) and the
  printing routine `list` are not part of the embedding.
-/

namespace Pythia8

/-! ## Data model -/

/-- Upper bound of the initialisation loop of the constructor,
`for (int i = 0; i < 40; ++i) counters[i] = 0;`. -/
def nCountersInit : Nat := 40

/-- Reduction of an integer to the 32-bit two's complement range of `int`. -/
def wrapInt (z : Int) : Int := (z + 2147483648) % 4294967296 - 2147483648

/-- Read access `v[i]` of a `std::vector` with an `int` index. -/
def vecAt {α : Type} (v : List α) (i : Int) : Option α :=
  if 0 ≤ i then v[i.toNat]? else none

/-- Write access `v[i] = x` of a `std::vector` with an `int` index. -/
def vecSet {α : Type} (v : List α) (i : Int) (x : α) : Option (List α) :=
  if 0 ≤ i ∧ i.toNat < v.length then some (v.set i.toNat x) else none

/-- The data members of `class Info`, in the order of their declaration. -/
structure Info (D : Type) where
  -- Store common beam quantities.
  idASave : Int
  idBSave : Int
  pzASave : D
  eASave : D
  mASave : D
  pzBSave : D
  eBSave : D
  mBSave : D
  eCMSave : D
  sSave : D
  -- Store initialization information.
  lowPTmin : Bool
  -- Store common integrated cross section quantities.
  nTry : Int
  nSel : Int
  nAcc : Int
  sigGen : D
  sigErr : D
  wtAccSum : D
  -- Store common MPI information.
  a0MISave : D
  -- Store current-event quantities.
  isRes : Bool
  isDiffA : Bool
  isDiffB : Bool
  isMB : Bool
  isLH : Bool
  hasSubSave : Bool
  bIsSet : Bool
  evolIsSet : Bool
  atEOF : Bool
  isVal1 : Bool
  isVal2 : Bool
  hasHistorySave : Bool
  codeSave : Int
  codeSubSave : Int
  nFinalSave : Int
  nFinalSubSave : Int
  nTotal : Int
  id1Save : Int
  id2Save : Int
  nMISave : Int
  nISRSave : Int
  nFSRinProcSave : Int
  nFSRinResSave : Int
  x1Save : D
  x2Save : D
  pdf1Save : D
  pdf2Save : D
  Q2FacSave : D
  alphaEMSave : D
  alphaSSave : D
  Q2RenSave : D
  sH : D
  tH : D
  uH : D
  pTH : D
  m3H : D
  m4H : D
  thetaH : D
  phiH : D
  weightSave : D
  bMISave : D
  enhanceMISave : D
  pTmaxMISave : D
  pTmaxISRSave : D
  pTmaxFSRSave : D
  pTnowSave : D
  zNowISRSave : D
  pT2NowISRSave : D
  nameSave : String
  nameSubSave : String
  codeMISave : List Int
  iAMISave : List Int
  iBMISave : List Int
  pTMISave : List D
  eMISave : List D
  -- Vector of various loop counters.
  counters : Fin 50 → Int
  -- Map for all error messages.
  messages : List (String × Int)

namespace Info

variable {D : Type}

/-! ## Constructor -/

/-- The constructor `Info() : lowPTmin(false), a0MISave(0.)` with its loop
`for (int i = 0; i < 40; ++i) counters[i] = 0;`.  Members of class type
(strings, vectors, the map) are default-constructed empty; every other member
keeps the indeterminate content `mem` of the storage the object is built in. -/
def init [Zero D] (mem : Info D) : Info D :=
  { mem with
    lowPTmin := false
    a0MISave := 0
    counters := fun i => if i.val < nCountersInit then 0 else mem.counters i
    nameSave := ""
    nameSubSave := ""
    codeMISave := []
    iAMISave := []
    iBMISave := []
    pTMISave := []
    eMISave := []
    messages := [] }

/-! ## Accessors -/

def idA (st : Info D) : Int := st.idASave
def idB (st : Info D) : Int := st.idBSave
def pzA (st : Info D) : D := st.pzASave
def pzB (st : Info D) : D := st.pzBSave
def eA (st : Info D) : D := st.eASave
def eB (st : Info D) : D := st.eBSave
def mA (st : Info D) : D := st.mASave
def mB (st : Info D) : D := st.mBSave
def eCM (st : Info D) : D := st.eCMSave
def s (st : Info D) : D := st.sSave

def tooLowPTmin (st : Info D) : Bool := st.lowPTmin

def name (st : Info D) : String := st.nameSave
def code (st : Info D) : Int := st.codeSave
def nFinal (st : Info D) : Int := st.nFinalSave

def isResolved (st : Info D) : Bool := st.isRes
def isDiffractiveA (st : Info D) : Bool := st.isDiffA
def isDiffractiveB (st : Info D) : Bool := st.isDiffB
def isMinBias (st : Info D) : Bool := st.isMB

def isLHA (st : Info D) : Bool := st.isLH
def atEndOfFile (st : Info D) : Bool := st.atEOF

def hasSub (st : Info D) : Bool := st.hasSubSave
def nameSub (st : Info D) : String := st.nameSubSave
def codeSub (st : Info D) : Int := st.codeSubSave
def nFinalSub (st : Info D) : Int := st.nFinalSubSave

def id1 (st : Info D) : Int := st.id1Save
def id2 (st : Info D) : Int := st.id2Save
def x1 (st : Info D) : D := st.x1Save
def x2 (st : Info D) : D := st.x2Save
def tau [Mul D] (st : Info D) : D := st.x1Save * st.x2Save

def pdf1 (st : Info D) : D := st.pdf1Save
def pdf2 (st : Info D) : D := st.pdf2Save
def Q2Fac (st : Info D) : D := st.Q2FacSave
def isValence1 (st : Info D) : Bool := st.isVal1
def isValence2 (st : Info D) : Bool := st.isVal2
def alphaS (st : Info D) : D := st.alphaSSave
def alphaEM (st : Info D) : D := st.alphaEMSave
def Q2Ren (st : Info D) : D := st.Q2RenSave

def sHat (st : Info D) : D := st.sH
def tHat (st : Info D) : D := st.tH
def uHat (st : Info D) : D := st.uH
def pTHat (st : Info D) : D := st.pTH
def pT2Hat [Mul D] (st : Info D) : D := st.pTH * st.pTH
def m3Hat (st : Info D) : D := st.m3H
def m4Hat (st : Info D) : D := st.m4H
def thetaHat (st : Info D) : D := st.thetaH
def phiHat (st : Info D) : D := st.phiH

def weight (st : Info D) : D := st.weightSave
def weightSum (st : Info D) : D := st.wtAccSum

def nISR (st : Info D) : Int := st.nISRSave
def nFSRinProc (st : Info D) : Int := st.nFSRinProcSave
def nFSRinRes (st : Info D) : Int := st.nFSRinResSave

def pTmaxMI (st : Info D) : D := st.pTmaxMISave
def pTmaxISR (st : Info D) : D := st.pTmaxISRSave
def pTmaxFSR (st : Info D) : D := st.pTmaxFSRSave

def pTnow (st : Info D) : D := st.pTnowSave

def a0MI (st : Info D) : D := st.a0MISave

/-- Source: `double bMI() const {return (bIsSet) ? bMISave : 1.;}` -/
def bMI [One D] (st : Info D) : D := if st.bIsSet then st.bMISave else 1

/-- Source: `double enhanceMI() const {return (bIsSet) ? enhanceMISave : 1.;}` -/
def enhanceMI [One D] (st : Info D) : D := if st.bIsSet then st.enhanceMISave else 1

/-- Source: `double eMI(int i) const {return (bIsSet) ? eMISave[i] : 1.;}`: the vector
is indexed only when the flag is set. -/
def eMI [One D] (st : Info D) (i : Int) : Option D :=
  if st.bIsSet then vecAt st.eMISave i else some 1

def nMI (st : Info D) : Int := st.nMISave
def codeMI (st : Info D) (i : Int) : Option Int := vecAt st.codeMISave i
def pTMI (st : Info D) (i : Int) : Option D := vecAt st.pTMISave i
def iAMI (st : Info D) (i : Int) : Option Int := vecAt st.iAMISave i
def iBMI (st : Info D) (i : Int) : Option Int := vecAt st.iBMISave i

def nTried (st : Info D) : Int := st.nTry
def nSelected (st : Info D) : Int := st.nSel
def nAccepted (st : Info D) : Int := st.nAcc
def sigmaGen (st : Info D) : D := st.sigGen
def sigmaErr (st : Info D) : D := st.sigErr

/-- Source: `int getCounter( int i) const {return counters[i];}` -/
def getCounter (st : Info D) (i : Int) : Option Int :=
  if h : 0 ≤ i ∧ i < 50 then some (st.counters ⟨i.toNat, by omega⟩) else none

def hasHistory (st : Info D) : Bool := st.hasHistorySave
def zNowISR (st : Info D) : D := st.zNowISRSave
def pT2NowISR (st : Info D) : D := st.pT2NowISRSave

/-! ## Mutators defined in the header -/

/-- Source: `void setCounter( int i, int value = 0) {counters[i] = value;}` -/
def setCounter (st : Info D) (i : Int) (value : Int) : Option (Info D) :=
  if h : 0 ≤ i ∧ i < 50 then
    some { st with counters := Function.update st.counters ⟨i.toNat, by omega⟩ value }
  else none

/-- Source: `void addCounter( int i, int value = 1) {counters[i] += value;}` -/
def addCounter (st : Info D) (i : Int) (value : Int) : Option (Info D) :=
  if h : 0 ≤ i ∧ i < 50 then
    some { st with
      counters := Function.update st.counters ⟨i.toNat, by omega⟩
        (wrapInt (st.counters ⟨i.toNat, by omega⟩ + value)) }
  else none

/-- Source: `void errorReset() {messages.clear();}` -/
def errorReset (st : Info D) : Info D := { st with messages := [] }

/-- Source: `void setTooLowPTmin(bool lowPTminIn) {lowPTmin = lowPTminIn;}` -/
def setTooLowPTmin (st : Info D) (lowPTminIn : Bool) : Info D :=
  { st with lowPTmin := lowPTminIn }

/-- Source: `void setValence( bool isVal1In, bool isVal2In)` -/
def setValence (st : Info D) (isVal1In isVal2In : Bool) : Info D :=
  { st with isVal1 := isVal1In, isVal2 := isVal2In }

/-- Source: `void hasHistory( bool hasHistoryIn) {hasHistorySave = hasHistoryIn;}` -/
def setHasHistory (st : Info D) (hasHistoryIn : Bool) : Info D :=
  { st with hasHistorySave := hasHistoryIn }

/-- Source: `void zNowISR( double zNowIn) {zNowISRSave = zNowIn;}` -/
def setZNowISR (st : Info D) (zNowIn : D) : Info D :=
  { st with zNowISRSave := zNowIn }

/-- Source: `void pT2NowISR( double pT2NowIn) {pT2NowISRSave = pT2NowIn;}` -/
def setPT2NowISR (st : Info D) (pT2NowIn : D) : Info D :=
  { st with pT2NowISRSave := pT2NowIn }

/-- Source: `void setBeamA( int idAin, double pzAin, double eAin, double mAin)` -/
def setBeamA (st : Info D) (idAin : Int) (pzAin eAin mAin : D) : Info D :=
  { st with idASave := idAin, pzASave := pzAin, eASave := eAin, mASave := mAin }

/-- Source: `void setBeamB( int idBin, double pzBin, double eBin, double mBin)` -/
def setBeamB (st : Info D) (idBin : Int) (pzBin eBin mBin : D) : Info D :=
  { st with idBSave := idBin, pzBSave := pzBin, eBSave := eBin, mBSave := mBin }

/-- Source: `void setECM( double eCMin) {eCMSave = eCMin; sSave = eCMSave * eCMSave;}` -/
def setECM [Mul D] (st : Info D) (eCMin : D) : Info D :=
  let st1 := { st with eCMSave := eCMin }
  { st1 with sSave := st1.eCMSave * st1.eCMSave }

/-- Source: `void clear()`: the reset of the current-event quantities.  The flags
become `false`, the integers `0`, the floating-point members `0.` except
`weightSave = bMISave = enhanceMISave = 1.`, both names the one-blank string
`" "`, and the five vectors are resized to length 0. -/
def clear [Zero D] [One D] (st : Info D) : Info D :=
  { st with
    isRes := false, isDiffA := false, isDiffB := false, isMB := false
    isLH := false, hasSubSave := false, bIsSet := false, evolIsSet := false
    atEOF := false, isVal1 := false, isVal2 := false, hasHistorySave := false
    codeSave := 0, codeSubSave := 0, nFinalSave := 0, nFinalSubSave := 0
    nTotal := 0, id1Save := 0, id2Save := 0, nMISave := 0, nISRSave := 0
    nFSRinProcSave := 0, nFSRinResSave := 0
    x1Save := 0, x2Save := 0, pdf1Save := 0, pdf2Save := 0, Q2FacSave := 0
    alphaEMSave := 0, alphaSSave := 0, Q2RenSave := 0, sH := 0, tH := 0
    uH := 0, pTH := 0, m3H := 0, m4H := 0, thetaH := 0, phiH := 0
    weightSave := 1, bMISave := 1, enhanceMISave := 1
    pTmaxMISave := 0, pTmaxISRSave := 0, pTmaxFSRSave := 0, pTnowSave := 0
    zNowISRSave := 0, pT2NowISRSave := 0
    nameSave := " ", nameSubSave := " "
    codeMISave := [], iAMISave := [], iBMISave := []
    pTMISave := [], eMISave := [] }

/-- Source: `void setType( string nameIn, int codeIn, int nFinalIn,
bool isMinBiasIn = false, bool isResolvedIn = true,
bool isDiffractiveAin = false, bool isDiffractiveBin = false,
bool isLHAin = false)`.  Besides the eight arguments it stores
`nTotal = 2 + nFinalSave` and resets `bIsSet`, `hasSubSave`, `nameSubSave`,
`codeSubSave`, `nFinalSubSave` and `evolIsSet`. -/
def setType (st : Info D) (nameIn : String) (codeIn nFinalIn : Int)
    (isMinBiasIn isResolvedIn isDiffractiveAin isDiffractiveBin isLHAin : Bool) : Info D :=
  { st with
    nameSave := nameIn, codeSave := codeIn, nFinalSave := nFinalIn
    isMB := isMinBiasIn, isRes := isResolvedIn
    isDiffA := isDiffractiveAin, isDiffB := isDiffractiveBin, isLH := isLHAin
    nTotal := wrapInt (2 + nFinalIn), bIsSet := false, hasSubSave := false
    nameSubSave := " ", codeSubSave := 0, nFinalSubSave := 0, evolIsSet := false }

/-- Source: `void setSubType( string nameSubIn, int codeSubIn, int nFinalSubIn)` -/
def setSubType (st : Info D) (nameSubIn : String) (codeSubIn nFinalSubIn : Int) : Info D :=
  { st with
    hasSubSave := true, nameSubSave := nameSubIn, codeSubSave := codeSubIn
    nFinalSubSave := nFinalSubIn }

/-- Source: `void setPDFalpha( int id1In, int id2In, double pdf1In, double pdf2In,
double Q2FacIn, double alphaEMIn, double alphaSIn, double Q2RenIn)` -/
def setPDFalpha (st : Info D) (id1In id2In : Int)
    (pdf1In pdf2In Q2FacIn alphaEMIn alphaSIn Q2RenIn : D) : Info D :=
  { st with
    id1Save := id1In, id2Save := id2In, pdf1Save := pdf1In, pdf2Save := pdf2In
    Q2FacSave := Q2FacIn, alphaEMSave := alphaEMIn, alphaSSave := alphaSIn
    Q2RenSave := Q2RenIn }

/-- Source: `void setKin( double x1In, double x2In, double sHatIn, double tHatIn,
double uHatIn, double pTHatIn, double m3HatIn, double m4HatIn,
double thetaHatIn, double phiHatIn)` -/
def setKin (st : Info D)
    (x1In x2In sHatIn tHatIn uHatIn pTHatIn m3HatIn m4HatIn thetaHatIn phiHatIn : D) :
    Info D :=
  { st with
    x1Save := x1In, x2Save := x2In, sH := sHatIn, tH := tHatIn, uH := uHatIn
    pTH := pTHatIn, m3H := m3HatIn, m4H := m4HatIn, thetaH := thetaHatIn
    phiH := phiHatIn }

/-- Source: `void setTypeMI( int codeMIIn, double pTMIIn, int iAMIIn = 0,
int iBMIIn = 0, double eMIIn = 1.)`: one `push_back` on each of the five
vectors. -/
def setTypeMI (st : Info D) (codeMIIn : Int) (pTMIIn : D) (iAMIIn iBMIIn : Int)
    (eMIIn : D) : Info D :=
  { st with
    codeMISave := st.codeMISave ++ [codeMIIn]
    pTMISave := st.pTMISave ++ [pTMIIn]
    iAMISave := st.iAMISave ++ [iAMIIn]
    iBMISave := st.iBMISave ++ [iBMIIn]
    eMISave := st.eMISave ++ [eMIIn] }

/-- Source: `void setSigma( long nTryIn, long nSelIn, long nAccIn, double sigGenIn,
double sigErrIn, double wtAccSumIn)` -/
def setSigma (st : Info D) (nTryIn nSelIn nAccIn : Int)
    (sigGenIn sigErrIn wtAccSumIn : D) : Info D :=
  { st with
    nTry := nTryIn, nSel := nSelIn, nAcc := nAccIn
    sigGen := sigGenIn, sigErr := sigErrIn, wtAccSum := wtAccSumIn }

/-- Source: `void setImpact( double bMIIn, double enhanceMIIn) {bMISave = bMIIn;
enhanceMISave = eMISave[0] = enhanceMIIn, bIsSet = true;}`.  The write
`eMISave[0] = enhanceMIIn` needs an element at index 0. -/
def setImpact (st : Info D) (bMIIn enhanceMIIn : D) : Option (Info D) :=
  match vecSet st.eMISave 0 enhanceMIIn with
  | none => none
  | some v =>
    some { st with
      bMISave := bMIIn, eMISave := v, enhanceMISave := enhanceMIIn, bIsSet := true }

/-- Source: `void setPartEvolved( int nMIIn, int nISRIn)` -/
def setPartEvolved (st : Info D) (nMIIn nISRIn : Int) : Info D :=
  { st with nMISave := nMIIn, nISRSave := nISRIn }

/-- Source: `void setEvolution( double pTmaxMIIn, double pTmaxISRIn, double pTmaxFSRIn,
int nMIIn, int nISRIn, int nFSRinProcIn, int nFSRinResIn)` -/
def setEvolution (st : Info D) (pTmaxMIIn pTmaxISRIn pTmaxFSRIn : D)
    (nMIIn nISRIn nFSRinProcIn nFSRinResIn : Int) : Info D :=
  { st with
    pTmaxMISave := pTmaxMIIn, pTmaxISRSave := pTmaxISRIn
    pTmaxFSRSave := pTmaxFSRIn, nMISave := nMIIn, nISRSave := nISRIn
    nFSRinProcSave := nFSRinProcIn, nFSRinResSave := nFSRinResIn
    evolIsSet := true }

/-- Source: `void setPTnow( double pTnowIn) {pTnowSave = pTnowIn;}` -/
def setPTnow (st : Info D) (pTnowIn : D) : Info D := { st with pTnowSave := pTnowIn }

/-- Source: `void a0MI(double a0MIin) {a0MISave = a0MIin;}` -/
def setA0MI (st : Info D) (a0MIin : D) : Info D := { st with a0MISave := a0MIin }

/-- Source: `void setEndOfFile( bool atEOFin) {atEOF = atEOFin;}` -/
def setEndOfFile (st : Info D) (atEOFin : Bool) : Info D := { st with atEOF := atEOFin }

/-- Source: `void setWeight( double weightIn) {weightSave = weightIn;}` -/
def setWeight (st : Info D) (weightIn : D) : Info D := { st with weightSave := weightIn }

/-! ## The diagnostic log

`errorMsg`, `errorTotalNumber` and `errorStatistics` are declared in the
header and defined in Info.cc, as is the value of the constant
`TIMESTOPRINT`. -/

/-- Assignment `m[k] = v` on the association list that stands for the
`std::map`: an existing key keeps its place, a new key is added. -/
def mapAssign (m : List (String × Int)) (k : String) (v : Int) : List (String × Int) :=
  match m with
  | [] => [(k, v)]
  | (k0, v0) :: rest => if k0 = k then (k, v) :: rest else (k0, v0) :: mapAssign rest k v

/-- Modelled from the spec: the body of `errorMsg` (Info.cc) is not among the
sources.  Section 4.1: the call looks up its key; if the key is absent it is
inserted with count 1 and the line is written to the sink; if it is present
the count is incremented and the line is written again only if the current
(incremented) count is at or below the threshold `T` or `showAlways` is true.  The key that
the string-keyed map of the header receives for the pair (message, extra) is
the parameter `key`, the threshold `TIMESTOPRINT` the parameter `T`; a written
line is recorded on the sink by its message and its extra text. -/
def errorMsg (key : String → String → String) (T : Int) (st : Info D)
    (messageIn extraIn : String) (showAlways : Bool) (os : List (String × String)) :
    Info D × List (String × String) :=
  match st.messages.lookup (key messageIn extraIn) with
  | none =>
    ({ st with messages := mapAssign st.messages (key messageIn extraIn) 1 },
      os ++ [(messageIn, extraIn)])
  | some n =>
    ({ st with messages := mapAssign st.messages (key messageIn extraIn) (n + 1) },
      if n + 1 ≤ T ∨ showAlways = true then os ++ [(messageIn, extraIn)] else os)

/-- Modelled from the spec: the body of `errorTotalNumber` (Info.cc) is not
among the sources.  Section 4.1: the total is the sum of all stored counts. -/
def errorTotalNumber (st : Info D) : Int := (st.messages.map Prod.snd).sum

/-- Modelled from the spec: the body of `errorStatistics` (Info.cc) is not
among the sources.  Sections 4.1 and 4.4: the report writes one line for every
distinct recorded key with its final count, in a stable order (here the order
of the stored map).  A report line is recorded on the sink by the stored key
and its count. -/
def errorStatistics (st : Info D) (os : List (String × Int)) : List (String × Int) :=
  os ++ st.messages

/-- Modelled from the spec: the composite key (message text, extra-detail
text) of sections 3 and 4.1, which `errorMsg` (body in Info.cc, not among the
sources) looks up.  The map of the header is keyed by one string, so the pair
is written as a string from which both texts can be read back: the length of
the message in unary (that many characters 1, closed by a 0), the message, the
extra text.  Two pairs get the same key only when they are the same pair. -/
def compositeKey (messageIn extraIn : String) : String :=
  String.mk (List.replicate messageIn.length '1' ++ '0' :: (messageIn.data ++ extraIn.data))

/-- The same `errorMsg` call made `n` times in a row, state and sink threaded
through. -/
def errorMsgRepeat (key : String → String → String) (T : Int)
    (messageIn extraIn : String) (showAlways : Bool) :
    Nat → Info D × List (String × String) → Info D × List (String × String)
  | 0, p => p
  | n + 1, p =>
    errorMsg key T (errorMsgRepeat key T messageIn extraIn showAlways n p).1
      messageIn extraIn showAlways
      (errorMsgRepeat key T messageIn extraIn showAlways n p).2

/-! ## Operations as data -/

/-- The state-changing member functions of the class with their arguments. -/
inductive Op (D : Type) where
  | setCounter (i value : Int)
  | addCounter (i value : Int)
  | errorReset
  | errorMsg (messageIn extraIn : String) (showAlways : Bool)
  | setTooLowPTmin (lowPTminIn : Bool)
  | setValence (isVal1In isVal2In : Bool)
  | setHasHistory (hasHistoryIn : Bool)
  | setZNowISR (zNowIn : D)
  | setPT2NowISR (pT2NowIn : D)
  | setBeamA (idAin : Int) (pzAin eAin mAin : D)
  | setBeamB (idBin : Int) (pzBin eBin mBin : D)
  | setECM (eCMin : D)
  | clear
  | setType (nameIn : String) (codeIn nFinalIn : Int)
      (isMinBiasIn isResolvedIn isDiffractiveAin isDiffractiveBin isLHAin : Bool)
  | setSubType (nameSubIn : String) (codeSubIn nFinalSubIn : Int)
  | setPDFalpha (id1In id2In : Int) (pdf1In pdf2In Q2FacIn alphaEMIn alphaSIn Q2RenIn : D)
  | setKin (x1In x2In sHatIn tHatIn uHatIn pTHatIn m3HatIn m4HatIn thetaHatIn phiHatIn : D)
  | setTypeMI (codeMIIn : Int) (pTMIIn : D) (iAMIIn iBMIIn : Int) (eMIIn : D)
  | setSigma (nTryIn nSelIn nAccIn : Int) (sigGenIn sigErrIn wtAccSumIn : D)
  | setImpact (bMIIn enhanceMIIn : D)
  | setPartEvolved (nMIIn nISRIn : Int)
  | setEvolution (pTmaxMIIn pTmaxISRIn pTmaxFSRIn : D)
      (nMIIn nISRIn nFSRinProcIn nFSRinResIn : Int)
  | setPTnow (pTnowIn : D)
  | setA0MI (a0MIin : D)
  | setEndOfFile (atEOFin : Bool)
  | setWeight (weightIn : D)

/-- The three operations that write the beam record. -/
def Op.isBeamSetter : Op D → Bool
  | .setBeamA .. => true
  | .setBeamB .. => true
  | .setECM .. => true
  | _ => false

/-- One call of a member function; `none` when the call indexes a vector or
the counter array outside its bounds. -/
def step [Zero D] [One D] [Mul D] (key : String → String → String) (T : Int) :
    Op D → Info D → Option (Info D)
  | .setCounter i value, st => st.setCounter i value
  | .addCounter i value, st => st.addCounter i value
  | .errorReset, st => some st.errorReset
  | .errorMsg messageIn extraIn showAlways, st =>
    some (errorMsg key T st messageIn extraIn showAlways []).1
  | .setTooLowPTmin b, st => some (st.setTooLowPTmin b)
  | .setValence a b, st => some (st.setValence a b)
  | .setHasHistory b, st => some (st.setHasHistory b)
  | .setZNowISR z, st => some (st.setZNowISR z)
  | .setPT2NowISR z, st => some (st.setPT2NowISR z)
  | .setBeamA a b c d, st => some (st.setBeamA a b c d)
  | .setBeamB a b c d, st => some (st.setBeamB a b c d)
  | .setECM e, st => some (st.setECM e)
  | .clear, st => some st.clear
  | .setType n c f a b d e g, st => some (st.setType n c f a b d e g)
  | .setSubType n c f, st => some (st.setSubType n c f)
  | .setPDFalpha a b c d e f g h, st => some (st.setPDFalpha a b c d e f g h)
  | .setKin a b c d e f g h i j, st => some (st.setKin a b c d e f g h i j)
  | .setTypeMI c p a b e, st => some (st.setTypeMI c p a b e)
  | .setSigma a b c d e f, st => some (st.setSigma a b c d e f)
  | .setImpact b e, st => st.setImpact b e
  | .setPartEvolved a b, st => some (st.setPartEvolved a b)
  | .setEvolution a b c d e f g, st => some (st.setEvolution a b c d e f g)
  | .setPTnow p, st => some (st.setPTnow p)
  | .setA0MI a, st => some (st.setA0MI a)
  | .setEndOfFile b, st => some (st.setEndOfFile b)
  | .setWeight w, st => some (st.setWeight w)

/-- A sequence of calls, left to right. -/
def run [Zero D] [One D] [Mul D] (key : String → String → String) (T : Int) :
    List (Op D) → Info D → Option (Info D)
  | [], st => some st
  | op :: ops, st => (step key T op st).bind (run key T ops)

/-- The arguments of one `setTypeMI` call. -/
structure MICall (D : Type) where
  codeMIIn : Int
  pTMIIn : D
  iAMIIn : Int
  iBMIIn : Int
  eMIIn : D

/-- Consecutive `setTypeMI` calls, the head of the list first. -/
def appendMI (st : Info D) : List (MICall D) → Info D
  | [] => st
  | c :: cs => appendMI (st.setTypeMI c.codeMIIn c.pTMIIn c.iAMIIn c.iBMIIn c.eMIIn) cs

/-- The ten beam quantities read through their accessors. -/
def beamRecord (st : Info D) : Int × Int × D × D × D × D × D × D × D × D :=
  (st.idA, st.idB, st.pzA, st.pzB, st.eA, st.eB, st.mA, st.mB, st.eCM, st.s)

/-- The six run-level cross-section quantities read through their accessors. -/
def sigmaRecord (st : Info D) : Int × Int × Int × D × D × D :=
  (st.nTried, st.nSelected, st.nAccepted, st.sigmaGen, st.sigmaErr, st.weightSum)

/-- A storage content with every number zero, every flag false and every
container empty, over the rationals. -/
def zeroMem : Info ℚ :=
  { idASave := 0, idBSave := 0, pzASave := 0, eASave := 0, mASave := 0
    pzBSave := 0, eBSave := 0, mBSave := 0, eCMSave := 0, sSave := 0
    lowPTmin := false
    nTry := 0, nSel := 0, nAcc := 0, sigGen := 0, sigErr := 0, wtAccSum := 0
    a0MISave := 0
    isRes := false, isDiffA := false, isDiffB := false, isMB := false
    isLH := false, hasSubSave := false, bIsSet := false, evolIsSet := false
    atEOF := false, isVal1 := false, isVal2 := false, hasHistorySave := false
    codeSave := 0, codeSubSave := 0, nFinalSave := 0, nFinalSubSave := 0
    nTotal := 0, id1Save := 0, id2Save := 0, nMISave := 0, nISRSave := 0
    nFSRinProcSave := 0, nFSRinResSave := 0
    x1Save := 0, x2Save := 0, pdf1Save := 0, pdf2Save := 0, Q2FacSave := 0
    alphaEMSave := 0, alphaSSave := 0, Q2RenSave := 0, sH := 0, tH := 0
    uH := 0, pTH := 0, m3H := 0, m4H := 0, thetaH := 0, phiH := 0
    weightSave := 0, bMISave := 0, enhanceMISave := 0
    pTmaxMISave := 0, pTmaxISRSave := 0, pTmaxFSRSave := 0, pTnowSave := 0
    zNowISRSave := 0, pT2NowISRSave := 0
    nameSave := "", nameSubSave := ""
    codeMISave := [], iAMISave := [], iBMISave := [], pTMISave := [], eMISave := []
    counters := fun _ => 0
    messages := [] }

/-- One event after `setECM(7)` on the all-zero storage: reset, process type,
one MPI entry, impact parameter, a counter, a diagnostic and a new proton
beam A. -/
def sampleEvent : List (Op ℚ) :=
  [.clear, .setType "f fbar -> Z0" 221 1 false true false false false,
    .setTypeMI 111 12 3 4 1, .setImpact 2 3, .addCounter 4 1,
    .errorMsg "pT below cutoff" "ISR" false, .setBeamA 2212 7 7 1]

/-- A storage content like `zeroMem` in which every slot of the counter array
holds the stale value 7. -/
def staleMem : Info ℚ := { zeroMem with counters := fun _ => 7 }

/-- The five MPI vectors `codeMISave`, `pTMISave`, `iAMISave`, `iBMISave`,
`eMISave` have one common length. -/
def sameLengthMI (st : Info D) : Prop :=
  st.pTMISave.length = st.codeMISave.length ∧
  st.iAMISave.length = st.codeMISave.length ∧
  st.iBMISave.length = st.codeMISave.length ∧
  st.eMISave.length = st.codeMISave.length

instance (st : Info D) : Decidable (sameLengthMI st) :=
  inferInstanceAs (Decidable (_ ∧ _ ∧ _ ∧ _))

/-! ## Auxiliary facts -/

theorem vecAt_natCast {α : Type} (v : List α) (i : Nat) : vecAt v (i : Int) = v[i]? := by
  simp [vecAt]

theorem vecAt_natCast_succ {α : Type} (v : List α) (i : Nat) :
    vecAt v ((i : Int) + 1) = v[i + 1]? := by
  have h := vecAt_natCast v (i + 1)
  rwa [Nat.cast_succ] at h

theorem vecAt_of_lt {α : Type} (v : List α) (i : Nat) (h : i < v.length) :
    vecAt v (i : Int) = some v[i] := by
  rw [vecAt_natCast, List.getElem?_eq_getElem h]

/-- A run of `setTypeMI` calls extends each of the five vectors by the
corresponding arguments, in call order, and changes nothing else. -/
theorem appendMI_eq (st : Info D) (cs : List (MICall D)) :
    appendMI st cs =
      { st with
        codeMISave := st.codeMISave ++ cs.map MICall.codeMIIn
        pTMISave := st.pTMISave ++ cs.map MICall.pTMIIn
        iAMISave := st.iAMISave ++ cs.map MICall.iAMIIn
        iBMISave := st.iBMISave ++ cs.map MICall.iBMIIn
        eMISave := st.eMISave ++ cs.map MICall.eMIIn } := by
  induction cs generalizing st with
  | nil => simp [appendMI]
  | cons c cs ih => simp [appendMI, ih, setTypeMI, List.append_assoc]

/-! ## Event reset -/

/-- C1: from every state, after `clear()` the accessors give `weight() == 1`,
`hasSub() == false`, `nFinal() == 0`, `nMI() == 0`, the five stored MPI
vectors are empty, and `bMI()`, `enhanceMI()` and `eMI(i)` for every integer
`i` return `1.` (the last one without indexing the vector). -/
theorem clear_defaults [Zero D] [One D] (st : Info D) :
    st.clear.weight = 1 ∧ st.clear.hasSub = false ∧ st.clear.nFinal = 0 ∧
    st.clear.nMI = 0 ∧
    st.clear.codeMISave = [] ∧ st.clear.pTMISave = [] ∧ st.clear.iAMISave = [] ∧
    st.clear.iBMISave = [] ∧ st.clear.eMISave = [] ∧
    st.clear.bMI = 1 ∧ st.clear.enhanceMI = 1 ∧ ∀ i : Int, st.clear.eMI i = some 1 :=
  ⟨rfl, rfl, rfl, rfl, rfl, rfl, rfl, rfl, rfl, rfl, rfl, fun _ => rfl⟩

/-- C2: `clear()` leaves the run-level quantities alone: every counter reads
the same before and after (also through `getCounter(i)` for every `i`), the
six cross-section quantities `nTried()`, `nSelected()`, `nAccepted()`,
`sigmaGen()`, `sigmaErr()`, `weightSum()` are unchanged, and so is the message
map; counters set to 5 and 2 at two different valid indices still read 5 and 2
after `clear()`. -/
theorem clear_keeps_run_level [Zero D] [One D] (st : Info D) :
    (∀ i : Int, st.clear.getCounter i = st.getCounter i) ∧
    st.clear.counters = st.counters ∧
    sigmaRecord st.clear = sigmaRecord st ∧
    st.clear.messages = st.messages ∧
    ∀ i j : Int, 0 ≤ i ∧ i < 50 → 0 ≤ j ∧ j < 50 → i ≠ j →
      ∃ st2, (st.setCounter i 5).bind (fun st1 => st1.setCounter j 2) = some st2 ∧
        st2.clear.getCounter i = some 5 ∧ st2.clear.getCounter j = some 2 := by
  refine ⟨fun _ => rfl, rfl, rfl, rfl, ?_⟩
  intro i j hi hj hij
  have hne : (⟨i.toNat, by omega⟩ : Fin 50) ≠ ⟨j.toNat, by omega⟩ := by
    intro h
    have h2 : i.toNat = j.toNat := congrArg Fin.val h
    omega
  simp only [setCounter, dif_pos hi, dif_pos hj, Option.some_bind]
  refine ⟨_, rfl, ?_, ?_⟩
  · simp [getCounter, clear, hi, Function.update_noteq hne]
  · simp [getCounter, clear, hj]

/-- Counters 4 and 7 of the all-zero storage set to 5 and 2, then `clear()`. -/
theorem clear_keeps_run_level_example :
    ∃ st2, (zeroMem.setCounter 4 5).bind (fun st1 => st1.setCounter 7 2) = some st2 ∧
      st2.clear.getCounter 4 = some 5 ∧ st2.clear.getCounter 7 = some 2 :=
  (clear_keeps_run_level zeroMem).2.2.2.2 4 7 (by decide) (by decide) (by decide)

/-! ## Cross-section snapshot -/

/-- C3: from every state and for all six arguments, after `setSigma` the
accessors `nTried()`, `nSelected()`, `nAccepted()`, `sigmaGen()`, `sigmaErr()`,
`weightSum()` return exactly the supplied values, whatever was stored before,
and putting the previous six values back gives the previous state, that is no
other member has changed. -/
theorem setSigma_overwrites (st : Info D) (nTryIn nSelIn nAccIn : Int)
    (sigGenIn sigErrIn wtAccSumIn : D) :
    (st.setSigma nTryIn nSelIn nAccIn sigGenIn sigErrIn wtAccSumIn).nTried = nTryIn ∧
    (st.setSigma nTryIn nSelIn nAccIn sigGenIn sigErrIn wtAccSumIn).nSelected = nSelIn ∧
    (st.setSigma nTryIn nSelIn nAccIn sigGenIn sigErrIn wtAccSumIn).nAccepted = nAccIn ∧
    (st.setSigma nTryIn nSelIn nAccIn sigGenIn sigErrIn wtAccSumIn).sigmaGen = sigGenIn ∧
    (st.setSigma nTryIn nSelIn nAccIn sigGenIn sigErrIn wtAccSumIn).sigmaErr = sigErrIn ∧
    (st.setSigma nTryIn nSelIn nAccIn sigGenIn sigErrIn wtAccSumIn).weightSum = wtAccSumIn ∧
    { st.setSigma nTryIn nSelIn nAccIn sigGenIn sigErrIn wtAccSumIn with
      nTry := st.nTry, nSel := st.nSel, nAcc := st.nAcc
      sigGen := st.sigGen, sigErr := st.sigErr, wtAccSum := st.wtAccSum } = st :=
  ⟨rfl, rfl, rfl, rfl, rfl, rfl, rfl⟩

/-- The snapshot (100, 40, 10, 2.5, 0.1, 37.2) written over an earlier
snapshot (7, 7, 7, 9, 9, 9) reads back as supplied. -/
theorem setSigma_example :
    sigmaRecord ((zeroMem.setSigma 7 7 7 9 9 9).setSigma 100 40 10 2.5 0.1 37.2) =
      (100, 40, 10, 2.5, 0.1, 37.2) := by
  have h := setSigma_overwrites (zeroMem.setSigma 7 7 7 9 9 9) 100 40 10 2.5 0.1 37.2
  exact Prod.ext h.1 (Prod.ext h.2.1 (Prod.ext h.2.2.1 (Prod.ext h.2.2.2.1
    (Prod.ext h.2.2.2.2.1 h.2.2.2.2.2.1))))

/-! ## Multiparton-interaction entries -/

/-- C4: for every list of `k` consecutive `setTypeMI` calls made after
`clear()`, each of the five stored vectors has length `k`, and for every
`i < k` the accessors `codeMI(i)`, `pTMI(i)`, `iAMI(i)`, `iBMI(i)` return the
arguments of call number `i`; further `setTypeMI` calls do not change what
these accessors return at an index `i < k`. -/
theorem appendMI_entries [Zero D] [One D] (st : Info D) (cs : List (MICall D)) :
    ((appendMI st.clear cs).codeMISave.length = cs.length ∧
      (appendMI st.clear cs).pTMISave.length = cs.length ∧
      (appendMI st.clear cs).iAMISave.length = cs.length ∧
      (appendMI st.clear cs).iBMISave.length = cs.length ∧
      (appendMI st.clear cs).eMISave.length = cs.length) ∧
    (∀ (i : Nat) (h : i < cs.length),
      (appendMI st.clear cs).codeMI i = some cs[i].codeMIIn ∧
      (appendMI st.clear cs).pTMI i = some cs[i].pTMIIn ∧
      (appendMI st.clear cs).iAMI i = some cs[i].iAMIIn ∧
      (appendMI st.clear cs).iBMI i = some cs[i].iBMIIn) ∧
    (∀ (more : List (MICall D)) (i : Nat), i < cs.length →
      (appendMI st.clear (cs ++ more)).codeMI i = (appendMI st.clear cs).codeMI i ∧
      (appendMI st.clear (cs ++ more)).pTMI i = (appendMI st.clear cs).pTMI i ∧
      (appendMI st.clear (cs ++ more)).iAMI i = (appendMI st.clear cs).iAMI i ∧
      (appendMI st.clear (cs ++ more)).iBMI i = (appendMI st.clear cs).iBMI i) := by
  refine ⟨?_, ?_, ?_⟩
  · simp [appendMI_eq, clear]
  · intro i h
    simp [appendMI_eq, clear, codeMI, pTMI, iAMI, iBMI, vecAt_natCast, h]
  · intro more i h
    simp [appendMI_eq, clear, codeMI, pTMI, iAMI, iBMI, vecAt_natCast, h,
      List.getElem?_append_left]

/-- Two calls after `clear()` on the all-zero storage: index 1 holds the
second call. -/
theorem appendMI_entries_example :
    (appendMI zeroMem.clear [⟨111, 12, 3, 4, 1⟩, ⟨113, 5, 6, 7, 2⟩]).codeMI 1 = some 113 ∧
    (appendMI zeroMem.clear [⟨111, 12, 3, 4, 1⟩, ⟨113, 5, 6, 7, 2⟩]).pTMI 1 = some 5 ∧
    (appendMI zeroMem.clear [⟨111, 12, 3, 4, 1⟩, ⟨113, 5, 6, 7, 2⟩]).iAMI 1 = some 6 ∧
    (appendMI zeroMem.clear [⟨111, 12, 3, 4, 1⟩, ⟨113, 5, 6, 7, 2⟩]).iBMI 1 = some 7 :=
  (appendMI_entries zeroMem [⟨111, 12, 3, 4, 1⟩, ⟨113, 5, 6, 7, 2⟩]).2.1 1 (by decide)

/-- C5, as stated, fails: after `clear()` and one `setTypeMI` call `nMI()`
is 0, not 1. -/
theorem nMI_counts_appends_false :
    ¬ ∀ (st : Info ℚ) (cs : List (MICall ℚ)), (appendMI st.clear cs).nMI = cs.length := by
  intro h
  have h1 := h zeroMem [⟨111, 12, 3, 4, 1⟩]
  simp [appendMI_eq, clear, nMI] at h1

/-- C5, amended: `nMI()` reports the stored member `nMISave`, not the number
of appended entries.  After `clear()` followed by `k` `setTypeMI` calls
`nMI() == 0` while each of the five vectors has length `k`; `nMI() == n`
holds after `setPartEvolved(n, ...)` or `setEvolution(..., n, ...)`, which
store their argument `nMIIn` whatever the vectors hold. -/
theorem nMI_is_stored_count [Zero D] [One D] (st : Info D) (cs : List (MICall D)) :
    (appendMI st.clear cs).nMI = 0 ∧
    ((appendMI st.clear cs).codeMISave.length = cs.length ∧
      (appendMI st.clear cs).pTMISave.length = cs.length ∧
      (appendMI st.clear cs).iAMISave.length = cs.length ∧
      (appendMI st.clear cs).iBMISave.length = cs.length ∧
      (appendMI st.clear cs).eMISave.length = cs.length) ∧
    (∀ n nISRIn : Int, ((appendMI st.clear cs).setPartEvolved n nISRIn).nMI = n) ∧
    (∀ (a b c : D) (n nISRIn nFSRinProcIn nFSRinResIn : Int),
      ((appendMI st.clear cs).setEvolution a b c n nISRIn nFSRinProcIn nFSRinResIn).nMI = n) := by
  refine ⟨?_, ?_, fun _ _ => rfl, fun _ _ _ _ _ _ _ => rfl⟩
  · simp [appendMI_eq, clear, nMI]
  · simp [appendMI_eq, clear]

/-- C6, as stated, fails: after `clear()` and one `setTypeMI` call with
enhancement factor 2, `eMI(0)` is `1.`, not 2. -/
theorem eMI_returns_appended_false :
    ¬ ∀ (st : Info ℚ) (cs : List (MICall ℚ)) (i : Nat) (h : i < cs.length),
        (appendMI st.clear cs).eMI i = some cs[i].eMIIn := by
  intro h
  have h1 := h zeroMem [⟨111, 12, 3, 4, 2⟩] 0 (by decide)
  simp [appendMI_eq, clear, eMI] at h1

/-- C6, amended: for every list of `k` `setTypeMI` calls made after `clear()`
the stored vector `eMISave` holds the enhancement factor of call `i` at index
`i`, and `eMI(i)` returns it once the impact-parameter flag has been set:
after a following `setImpact(b, e)` (which succeeds when `k > 0`) `eMI(i)`
returns the factor of call `i` for `1 <= i < k` and `e` for `i = 0`.  While
the flag is unset, as it is directly after the calls, `eMI(i)` returns `1.`
for every `i`. -/
theorem eMI_after_appends [Zero D] [One D] (st : Info D) (cs : List (MICall D)) :
    (appendMI st.clear cs).eMISave = cs.map MICall.eMIIn ∧
    (∀ i : Int, (appendMI st.clear cs).eMI i = some 1) ∧
    (∀ b e : D, 0 < cs.length →
      ∃ st2, (appendMI st.clear cs).setImpact b e = some st2 ∧
        st2.eMI 0 = some e ∧
        ∀ (i : Nat) (h : i < cs.length), 1 ≤ i → st2.eMI i = some cs[i].eMIIn) := by
  refine ⟨?_, ?_, ?_⟩
  · simp [appendMI_eq, clear]
  · intro i
    simp [appendMI_eq, clear, eMI]
  · intro b e hk
    cases cs with
    | nil => simp at hk
    | cons c cs =>
      refine ⟨_, by simp [appendMI_eq, clear, setImpact, vecSet]; rfl, ?_, ?_⟩
      · simp [eMI, vecAt]
      · intro i h hi
        obtain ⟨j, rfl⟩ : ∃ j, i = j + 1 := ⟨i - 1, by omega⟩
        have hj : j < cs.length := by simpa using h
        simp [eMI, vecAt_natCast_succ, hj]

/-- Two calls with factors 2 and 3, then `setImpact(4, 5)`: `eMI(1)` is 3. -/
theorem eMI_after_appends_example :
    ∃ st2, (appendMI zeroMem.clear [⟨111, 12, 3, 4, 2⟩, ⟨113, 5, 6, 7, 3⟩]).setImpact 4 5
        = some st2 ∧
      st2.eMI 0 = some 5 ∧
      ∀ (i : Nat) (h : i < 2), 1 ≤ i →
        st2.eMI i = some ([⟨111, 12, 3, 4, 2⟩, ⟨113, 5, 6, 7, 3⟩] : List (MICall ℚ))[i].eMIIn :=
  (eMI_after_appends zeroMem [⟨111, 12, 3, 4, 2⟩, ⟨113, 5, 6, 7, 3⟩]).2.2 4 5 (by decide)

/-! ## Beam record -/

/-- C7: from every state and for every value, after `setECM(eCM)` the accessor
`eCM()` returns the argument and `s()` returns the product of the argument
with itself, formed with the multiplication of the stored number type; so
`s() == eCM() * eCM()`. -/
theorem setECM_sets [Mul D] (st : Info D) (eCMin : D) :
    (st.setECM eCMin).eCM = eCMin ∧
    (st.setECM eCMin).s = eCMin * eCMin ∧
    (st.setECM eCMin).s = (st.setECM eCMin).eCM * (st.setECM eCMin).eCM :=
  ⟨rfl, rfl, rfl⟩

/-- A call that is not one of the three beam setters leaves the ten beam
quantities as they are. -/
theorem step_beamRecord [Zero D] [One D] [Mul D] (key : String → String → String) (T : Int)
    (op : Op D) (st st' : Info D) (hop : op.isBeamSetter = false)
    (h : step key T op st = some st') : beamRecord st' = beamRecord st := by
  cases op with
  | setCounter i value =>
    simp only [step, setCounter] at h
    split at h
    · cases h; rfl
    · cases h
  | addCounter i value =>
    simp only [step, addCounter] at h
    split at h
    · cases h; rfl
    · cases h
  | errorMsg messageIn extraIn showAlways =>
    simp only [step, errorMsg, Option.some.injEq] at h
    subst h
    split <;> rfl
  | setImpact b e =>
    simp only [step, setImpact] at h
    split at h
    · cases h
    · cases h; rfl
  | setBeamA a b c d => cases hop
  | setBeamB a b c d => cases hop
  | setECM e => cases hop
  | _ => cases h; rfl

/-- Every call keeps `s() == eCM() * eCM()`. -/
theorem step_sInv [Zero D] [One D] [Mul D] (key : String → String → String) (T : Int)
    (op : Op D) (st st' : Info D) (hinv : st.s = st.eCM * st.eCM)
    (h : step key T op st = some st') : st'.s = st'.eCM * st'.eCM := by
  by_cases hop : op.isBeamSetter = false
  · have hb := step_beamRecord key T op st st' hop h
    simp only [beamRecord, Prod.mk.injEq] at hb
    obtain ⟨-, -, -, -, -, -, -, -, h9, h10⟩ := hb
    rw [h9, h10]
    exact hinv
  · cases op with
    | setBeamA a b c d => cases h; exact hinv
    | setBeamB a b c d => cases h; exact hinv
    | setECM e => cases h; rfl
    | _ => exact absurd rfl hop

theorem run_beamRecord [Zero D] [One D] [Mul D] (key : String → String → String) (T : Int)
    (ops : List (Op D)) (st st' : Info D) (hops : ∀ op ∈ ops, op.isBeamSetter = false)
    (h : run key T ops st = some st') : beamRecord st' = beamRecord st := by
  induction ops generalizing st with
  | nil =>
    simp only [run, Option.some.injEq] at h
    rw [h]
  | cons op ops ih =>
    simp only [run] at h
    cases hs : step key T op st with
    | none => rw [hs] at h; cases h
    | some st1 =>
      rw [hs, Option.some_bind] at h
      rw [ih st1 (fun o ho => hops o (List.mem_cons_of_mem _ ho)) h]
      exact step_beamRecord key T op st st1 (hops op (List.mem_cons_self _ _)) hs

theorem run_sInv [Zero D] [One D] [Mul D] (key : String → String → String) (T : Int)
    (ops : List (Op D)) (st st' : Info D) (hinv : st.s = st.eCM * st.eCM)
    (h : run key T ops st = some st') : st'.s = st'.eCM * st'.eCM := by
  induction ops generalizing st with
  | nil =>
    simp only [run, Option.some.injEq] at h
    rw [← h]
    exact hinv
  | cons op ops ih =>
    simp only [run] at h
    cases hs : step key T op st with
    | none => rw [hs] at h; cases h
    | some st1 =>
      rw [hs, Option.some_bind] at h
      exact ih st1 (step_sInv key T op st st1 hinv hs) h

/-- C8: a call other than `setBeamA`, `setBeamB`, `setECM` leaves `idA`, `idB`,
`pzA`, `pzB`, `eA`, `eB`, `mA`, `mB`, `eCM` and `s` unchanged, and so does every
sequence of such calls; after `setECM`, `s() == eCM() * eCM()` holds in the
state reached by any further sequence of calls; `setBeamA` changes only the
four A members and `setBeamB` only the four B members (putting the previous
four values back gives the previous state). -/
theorem beam_record_frame [Zero D] [One D] [Mul D] (key : String → String → String)
    (T : Int) :
    (∀ (op : Op D) (st st' : Info D), op.isBeamSetter = false →
      step key T op st = some st' → beamRecord st' = beamRecord st) ∧
    (∀ (ops : List (Op D)) (st st' : Info D), (∀ op ∈ ops, op.isBeamSetter = false) →
      run key T ops st = some st' → beamRecord st' = beamRecord st) ∧
    (∀ (ops : List (Op D)) (st st' : Info D) (eCMin : D),
      run key T ops (st.setECM eCMin) = some st' → st'.s = st'.eCM * st'.eCM) ∧
    (∀ (st : Info D) (idAin : Int) (pzAin eAin mAin : D),
      { st.setBeamA idAin pzAin eAin mAin with
        idASave := st.idASave, pzASave := st.pzASave, eASave := st.eASave
        mASave := st.mASave } = st) ∧
    (∀ (st : Info D) (idBin : Int) (pzBin eBin mBin : D),
      { st.setBeamB idBin pzBin eBin mBin with
        idBSave := st.idBSave, pzBSave := st.pzBSave, eBSave := st.eBSave
        mBSave := st.mBSave } = st) :=
  ⟨fun op st st' hop h => step_beamRecord key T op st st' hop h,
    fun ops st st' hops h => run_beamRecord key T ops st st' hops h,
    fun ops st st' e h => run_sInv key T ops (st.setECM e) st' rfl h,
    fun _ _ _ _ _ => rfl, fun _ _ _ _ _ => rfl⟩

/-- The sample event runs through and ends with `s() == eCM() * eCM()`. -/
theorem beam_record_frame_example :
    ∃ st', run (fun m e => m ++ e) 1 sampleEvent (zeroMem.setECM 7) = some st' ∧
      st'.s = st'.eCM * st'.eCM :=
  ⟨_, rfl, (beam_record_frame (fun m e => m ++ e) 1).2.2.1 sampleEvent zeroMem _ 7 rfl⟩

/-! ## Impact-parameter picture -/

/-- C9: in every state whose flag `bIsSet` is false, `bMI()`, `enhanceMI()`
and `eMI(i)` for every integer `i` return `1.`, whatever `bMISave`,
`enhanceMISave` and `eMISave` hold and without an index access (the result is
defined also for `i` outside the vector); this is the case after a successful
`setImpact` followed by `setType`. -/
theorem impact_default_when_unset [One D] :
    (∀ st : Info D, st.bIsSet = false →
      st.bMI = 1 ∧ st.enhanceMI = 1 ∧ ∀ i : Int, st.eMI i = some 1) ∧
    (∀ (st st1 : Info D) (b e : D) (nameIn : String) (codeIn nFinalIn : Int)
      (isMinBiasIn isResolvedIn isDiffractiveAin isDiffractiveBin isLHAin : Bool),
      st.setImpact b e = some st1 →
      (st1.setType nameIn codeIn nFinalIn isMinBiasIn isResolvedIn isDiffractiveAin
        isDiffractiveBin isLHAin).bMI = 1 ∧
      (st1.setType nameIn codeIn nFinalIn isMinBiasIn isResolvedIn isDiffractiveAin
        isDiffractiveBin isLHAin).enhanceMI = 1 ∧
      ∀ i : Int, (st1.setType nameIn codeIn nFinalIn isMinBiasIn isResolvedIn
        isDiffractiveAin isDiffractiveBin isLHAin).eMI i = some 1) := by
  refine ⟨?_, ?_⟩
  · intro st h
    simp [bMI, enhanceMI, eMI, h]
  · intro st st1 b e nameIn codeIn nFinalIn b1 b2 b3 b4 b5 _
    exact ⟨rfl, rfl, fun _ => rfl⟩

/-- On the state with one MPI entry, `setImpact(4, 5)` followed by `setType`
makes the three accessors return 1 again, also at the index 9 outside the
vector. -/
theorem impact_default_when_unset_example :
    ∃ st1, (zeroMem.clear.setTypeMI 111 12 3 4 2).setImpact 4 5 = some st1 ∧
      st1.bMI = 4 ∧ st1.eMI 0 = some 5 ∧
      (st1.setType "minBias" 101 2 true true false false false).bMI = 1 ∧
      (st1.setType "minBias" 101 2 true true false false false).enhanceMI = 1 ∧
      (st1.setType "minBias" 101 2 true true false false false).eMI 9 = some 1 :=
  ⟨_, rfl, rfl, rfl,
    (impact_default_when_unset.2 (zeroMem.clear.setTypeMI 111 12 3 4 2) _ 4 5
      "minBias" 101 2 true true false false false rfl).1,
    (impact_default_when_unset.1
      (Info.setType _ "minBias" 101 2 true true false false false) rfl).2.1,
    (impact_default_when_unset.1
      (Info.setType _ "minBias" 101 2 true true false false false) rfl).2.2 9⟩

/-- C10: in every state whose vector `eMISave` has at least one entry and for
all `(b, e)`, `setImpact(b, e)` succeeds and afterwards `bMI() == b`,
`enhanceMI() == e` and `eMI(0) == e`, while `eMI(i)` for `1 <= i` inside the
vector returns the entry stored before the call and the lengths of the five
vectors are unchanged; when the state was produced by `setTypeMI` calls after
`clear()`, that entry is the enhancement factor of call number `i`. -/
theorem setImpact_sync [Zero D] [One D] (st : Info D) (b e : D)
    (h : 0 < st.eMISave.length) :
    ∃ st', st.setImpact b e = some st' ∧
      st'.bMI = b ∧ st'.enhanceMI = e ∧ st'.eMI 0 = some e ∧
      (∀ (i : Nat) (hi : i < st.eMISave.length), 1 ≤ i → st'.eMI i = some st.eMISave[i]) ∧
      (st'.codeMISave.length = st.codeMISave.length ∧
        st'.pTMISave.length = st.pTMISave.length ∧
        st'.iAMISave.length = st.iAMISave.length ∧
        st'.iBMISave.length = st.iBMISave.length ∧
        st'.eMISave.length = st.eMISave.length) ∧
      (∀ (st0 : Info D) (cs : List (MICall D)), st = appendMI st0.clear cs →
        ∀ (i : Nat) (hi : i < cs.length), 1 ≤ i → st'.eMI i = some cs[i].eMIIn) := by
  have hset : vecSet st.eMISave 0 e = some (st.eMISave.set 0 e) := by
    simp [vecSet, h]
  have hstored : ∀ (i : Nat) (hi : i < st.eMISave.length), 1 ≤ i →
      vecAt (st.eMISave.set 0 e) (i : Int) = some st.eMISave[i] := by
    intro i hi h1
    rw [vecAt_natCast, List.getElem?_set_ne (by omega), List.getElem?_eq_getElem hi]
  refine ⟨{ st with
      bMISave := b, eMISave := st.eMISave.set 0 e, enhanceMISave := e, bIsSet := true },
    ?_, ?_, ?_, ?_, ?_, ?_, ?_⟩
  · simp [setImpact, hset]
  · simp [bMI]
  · simp [enhanceMI]
  · have h0 := vecAt_natCast (st.eMISave.set 0 e) 0
    simp only [Nat.cast_zero] at h0
    simp [eMI, h0, h]
  · intro i hi h1
    simpa [eMI] using hstored i hi h1
  · simp
  · intro st0 cs hst i hi h1
    have hlen : st.eMISave = cs.map MICall.eMIIn := by
      rw [hst]; simp [appendMI_eq, clear]
    have hi2 : i < st.eMISave.length := by rw [hlen]; simpa using hi
    have := hstored i hi2 h1
    simp only [eMI, if_true]
    rw [this]
    simp [hlen]

/-- Two entries with factors 2 and 3, then `setImpact(4, 5)`: the impact
parameter reads 4, entry 0 reads 5 and entry 1 still reads 3. -/
theorem setImpact_sync_example :
    0 < (appendMI zeroMem.clear [⟨111, 12, 3, 4, 2⟩, ⟨113, 5, 6, 7, 3⟩]).eMISave.length ∧
    ∃ st', (appendMI zeroMem.clear [⟨111, 12, 3, 4, 2⟩, ⟨113, 5, 6, 7, 3⟩]).setImpact 4 5
        = some st' ∧
      st'.bMI = 4 ∧ st'.enhanceMI = 5 ∧ st'.eMI 0 = some 5 ∧ st'.eMI 1 = some 3 := by
  refine ⟨by decide, ?_⟩
  obtain ⟨st', h1, h2, h3, h4, h5, -, -⟩ :=
    setImpact_sync (appendMI zeroMem.clear [⟨111, 12, 3, 4, 2⟩, ⟨113, 5, 6, 7, 3⟩]) 4 5
      (by decide)
  exact ⟨st', h1, h2, h3, h4, h5 1 (by decide) (by decide)⟩

/-! ## Loop counters -/

theorem wrapInt_of_range (z : Int) (h1 : -2147483648 ≤ z) (h2 : z < 2147483648) :
    wrapInt z = z := by
  unfold wrapInt
  omega

theorem getCounter_of_range (st : Info D) (i : Int) (hi : 0 ≤ i ∧ i < 50) :
    st.getCounter i = some (st.counters ⟨i.toNat, by omega⟩) := by
  simp [getCounter, hi]

/-- Writing slot `i` of the counter array leaves what `getCounter(j)` returns
for every other `j`. -/
theorem getCounter_update_ne (st : Info D) (i j : Int) (hi : 0 ≤ i ∧ i < 50) (x : Int)
    (hji : j ≠ i) :
    getCounter { st with counters := Function.update st.counters ⟨i.toNat, by omega⟩ x } j
      = st.getCounter j := by
  by_cases hj : 0 ≤ j ∧ j < 50
  · have hne : (⟨j.toNat, by omega⟩ : Fin 50) ≠ ⟨i.toNat, by omega⟩ := by
      intro h
      have h2 : j.toNat = i.toNat := congrArg Fin.val h
      omega
    simp [getCounter, hj, Function.update_noteq hne]
  · simp [getCounter, hj]

/-- C11: for every state, every index `0 <= i < 50` and every value `v`,
`setCounter(i, v)` succeeds and then `getCounter(i) == v`; `addCounter(i, v)`
succeeds and then `getCounter(i)` is the previous value plus `v` in `int`
arithmetic, which is the exact sum whenever that sum is an `int`.  In both
cases `getCounter(j)` is unchanged for every `j != i` and putting the old
counter array back gives the old state (no other member changes).  The
default arguments are the instances `v = 0` for set and `v = 1` for add. -/
theorem counter_set_add (st : Info D) (i v : Int) (hi : 0 ≤ i ∧ i < 50) :
    (∃ st', st.setCounter i v = some st' ∧ st'.getCounter i = some v ∧
      (∀ j : Int, j ≠ i → st'.getCounter j = st.getCounter j) ∧
      { st' with counters := st.counters } = st) ∧
    (∃ c st', st.getCounter i = some c ∧ st.addCounter i v = some st' ∧
      st'.getCounter i = some (wrapInt (c + v)) ∧
      (-2147483648 ≤ c + v → c + v < 2147483648 → st'.getCounter i = some (c + v)) ∧
      (∀ j : Int, j ≠ i → st'.getCounter j = st.getCounter j) ∧
      { st' with counters := st.counters } = st) := by
  refine ⟨⟨_, dif_pos hi, ?_, ?_, rfl⟩, ⟨_, _, getCounter_of_range st i hi, dif_pos hi, ?_, ?_, ?_,
    rfl⟩⟩
  · simp [getCounter, hi]
  · intro j hji
    exact getCounter_update_ne st i j hi v hji
  · simp [getCounter, hi]
  · intro h1 h2
    simp [getCounter, hi, wrapInt_of_range _ h1 h2]
  · intro j hji
    exact getCounter_update_ne st i j hi _ hji

/-- Counter 4 of the all-zero storage: set to 5, then increased by the
default step 1, reads 6, and counter 7 still reads 0. -/
theorem counter_set_add_example :
    ∃ st1 st2, zeroMem.setCounter 4 5 = some st1 ∧ st1.addCounter 4 1 = some st2 ∧
      st1.getCounter 4 = some 5 ∧ st2.getCounter 4 = some 6 ∧ st2.getCounter 7 = some 0 := by
  obtain ⟨⟨st1, h1, h2, -, -⟩, -⟩ := counter_set_add zeroMem 4 5 (by decide)
  obtain ⟨-, ⟨c, st2, h3, h4, -, h5, h6, -⟩⟩ := counter_set_add st1 4 1 (by decide)
  have hc : c = 5 := by
    rw [h2] at h3
    exact (Option.some.inj h3).symm
  subst hc
  refine ⟨st1, st2, h1, h4, h2, h5 (by decide) (by decide), ?_⟩
  rw [h6 7 (by decide)]
  cases h1
  rfl

/-- C12, evaluated on the code: the constructor zeroes the slots 0..39 only.
Built in storage whose counter slots hold 7, the new object reads 0 at index
39 and still 7 at the indices 40 and 49; in general every index below 40 reads
0 and every index from 40 to 49 reads what the storage held. -/
theorem init_counters :
    (init staleMem).getCounter 39 = some 0 ∧
    (init staleMem).getCounter 40 = some 7 ∧
    (init staleMem).getCounter 49 = some 7 ∧
    (∀ (mem : Info ℚ) (i : Int), 0 ≤ i ∧ i < 40 → (init mem).getCounter i = some 0) ∧
    (∀ (mem : Info ℚ) (i : Int), 40 ≤ i ∧ i < 50 →
      (init mem).getCounter i = mem.getCounter i) := by
  refine ⟨by decide, by decide, by decide, ?_, ?_⟩
  · intro mem i hi
    have h50 : 0 ≤ i ∧ i < 50 := ⟨hi.1, by omega⟩
    have h40 : i.toNat < 40 := by omega
    simp [getCounter, init, h50, nCountersInit, h40]
  · intro mem i hi
    have h50 : 0 ≤ i ∧ i < 50 := ⟨by omega, hi.2⟩
    have h40 : ¬ i.toNat < 40 := by omega
    simp [getCounter, init, h50, nCountersInit, h40]

/-! ## Diagnostic log -/

/-- One more call for a key that is the only stored one: the count goes up by
one and the line is written when the new count does not exceed `T`. -/
theorem errorMsg_single (key : String → String → String) (T : Int) (st : Info D)
    (messageIn extraIn : String) (c : Int) (os : List (String × String))
    (h : st.messages = [(key messageIn extraIn, c)]) :
    errorMsg key T st messageIn extraIn false os =
      ({ st with messages := [(key messageIn extraIn, c + 1)] },
        if c + 1 ≤ T then os ++ [(messageIn, extraIn)] else os) := by
  simp [errorMsg, h, List.lookup, mapAssign]

/-- The first call on an empty log stores the key with count 1 and writes the
line. -/
theorem errorMsg_empty (key : String → String → String) (T : Int) (st : Info D)
    (messageIn extraIn : String) (showAlways : Bool) (os : List (String × String))
    (h : st.messages = []) :
    errorMsg key T st messageIn extraIn showAlways os =
      ({ st with messages := [(key messageIn extraIn, 1)] }, os ++ [(messageIn, extraIn)]) := by
  simp [errorMsg, h, List.lookup, mapAssign]

/-- After `n + 1` identical calls on an empty log the map holds the one key
with count `n + 1` and the sink holds `min (n + 1) T` copies of the line. -/
theorem errorMsgRepeat_succ (key : String → String → String) (T : Int) (hT : 1 ≤ T)
    (st : Info D) (hempty : st.messages = []) (messageIn extraIn : String) (n : Nat) :
    (errorMsgRepeat key T messageIn extraIn false (n + 1) (st, [])).1.messages
        = [(key messageIn extraIn, (n : Int) + 1)] ∧
    (errorMsgRepeat key T messageIn extraIn false (n + 1) (st, [])).2
        = List.replicate (min ((n : Int) + 1) T).toNat (messageIn, extraIn) := by
  induction n with
  | zero =>
    have h2 : (min (((0 : Nat) : Int) + 1) T).toNat = 1 := by omega
    simp only [errorMsgRepeat]
    rw [errorMsg_empty key T st messageIn extraIn false [] hempty, h2]
    simp
  | succ n ih =>
    obtain ⟨ih1, ih2⟩ := ih
    have hlen : (min (((n + 1 : Nat) : Int) + 1) T).toNat
        = (min ((n : Int) + 1) T).toNat + (if (n : Int) + 1 + 1 ≤ T then 1 else 0) := by
      push_cast
      split <;> omega
    rw [errorMsgRepeat, errorMsg_single key T _ messageIn extraIn ((n : Int) + 1) _ ih1, ih2,
      hlen]
    constructor
    · simp
    · split
      · rw [List.replicate_succ']
      · simp

/-- C13: with a print threshold `T >= 1`, for every `(msg, extra)` and every
`n >= 1`, `n` calls `errorMsg(msg, extra)` with `showAlways` false on an empty
log write `min(n, T)` lines (each the line of this message),
`errorTotalNumber()` is `n`, and `errorStatistics` reports the one key with
count `n`. -/
theorem errorMsg_rate_limit (key : String → String → String) (T : Int) (hT : 1 ≤ T)
    (st : Info D) (hempty : st.messages = []) (messageIn extraIn : String) (n : Nat)
    (hn : 1 ≤ n) :
    (((errorMsgRepeat key T messageIn extraIn false n (st, [])).2.length : Int)
        = min (n : Int) T) ∧
    (∀ l ∈ (errorMsgRepeat key T messageIn extraIn false n (st, [])).2,
        l = (messageIn, extraIn)) ∧
    errorTotalNumber (errorMsgRepeat key T messageIn extraIn false n (st, [])).1 = n ∧
    errorStatistics (errorMsgRepeat key T messageIn extraIn false n (st, [])).1 []
        = [(key messageIn extraIn, (n : Int))] := by
  obtain ⟨m, rfl⟩ : ∃ m, n = m + 1 := ⟨n - 1, by omega⟩
  obtain ⟨h1, h2⟩ := errorMsgRepeat_succ key T hT st hempty messageIn extraIn m
  refine ⟨?_, ?_, ?_, ?_⟩
  · rw [h2, List.length_replicate]
    push_cast
    omega
  · intro l hl
    rw [h2] at hl
    exact List.eq_of_mem_replicate hl
  · simp [errorTotalNumber, h1]
  · simp [errorStatistics, h1]

/-- The diagnostic ("pT below cutoff", "ISR") recorded twice with `T = 1`:
one line is written and the total is 2. -/
theorem errorMsg_rate_limit_example :
    (errorMsgRepeat (fun m e => m ++ e) 1 "pT below cutoff" "ISR" false 2 (zeroMem, [])).2
        = [("pT below cutoff", "ISR")] ∧
    errorTotalNumber
      (errorMsgRepeat (fun m e => m ++ e) 1 "pT below cutoff" "ISR" false 2 (zeroMem, [])).1
        = 2 ∧
    errorStatistics
      (errorMsgRepeat (fun m e => m ++ e) 1 "pT below cutoff" "ISR" false 2 (zeroMem, [])).1 []
        = [("pT below cutoffISR", 2)] := by
  have h := errorMsg_rate_limit (fun m e => m ++ e) 1 (by decide) zeroMem rfl
    "pT below cutoff" "ISR" 2 (by decide)
  refine ⟨by decide, h.2.2.1, by decide⟩

/-- Two records on an empty log whose keys differ are stored as two keys with
count 1 each, in call order. -/
theorem errorMsg_two_records (key : String → String → String) (T : Int) (st : Info D)
    (hempty : st.messages = []) (m1 e1 m2 e2 : String) (show1 show2 : Bool)
    (hkey : key m1 e1 ≠ key m2 e2) :
    (errorMsg key T (errorMsg key T st m1 e1 show1 []).1 m2 e2 show2 []).1.messages
      = [(key m1 e1, 1), (key m2 e2, 1)] := by
  rw [errorMsg_empty key T st m1 e1 show1 [] hempty]
  have hb : (key m2 e2 == key m1 e1) = false := by
    simpa using fun h => hkey h.symm
  simp [errorMsg, List.lookup, mapAssign, hb, hkey]

theorem unaryHead_inj (a b : Nat) (r t : List Char)
    (h : List.replicate a '1' ++ '0' :: r = List.replicate b '1' ++ '0' :: t) :
    a = b ∧ r = t := by
  induction a generalizing b with
  | zero =>
    cases b with
    | zero => simpa using h
    | succ b => simp [List.replicate_succ] at h
  | succ a ih =>
    cases b with
    | zero => simp [List.replicate_succ] at h
    | succ b =>
      simp only [List.replicate_succ, List.cons_append, List.cons.injEq, true_and] at h
      obtain ⟨h1, h2⟩ := ih b h
      exact ⟨by omega, h2⟩

/-- The composite key determines the pair: equal keys come from equal messages
and equal extra texts. -/
theorem compositeKey_injective (m1 e1 m2 e2 : String)
    (h : compositeKey m1 e1 = compositeKey m2 e2) : m1 = m2 ∧ e1 = e2 := by
  unfold compositeKey at h
  obtain ⟨hlen, hdata⟩ := unaryHead_inj _ _ _ _ (congrArg String.data h)
  have hlen2 : m1.data.length = m2.data.length := hlen
  obtain ⟨hm, he⟩ := List.append_inj hdata hlen2
  exact ⟨String.ext hm, String.ext he⟩

/-- C14: with the log keyed by the composite pair (message, extra), for every
message `m` and every two extra texts `e1 != e2`, recording `(m, e1)` and then
`(m, e2)` on an empty log stores two different keys with count 1 each (two
entries, not one key with count 2); the total is 2 and the report has the two
lines.  The same holds for a second record `(m2, e2)` that differs from
`(m, e1)` in the message. -/
theorem errorMsg_composite_key (T : Int) (st : Info D) (hempty : st.messages = [])
    (m e1 e2 : String) (show1 show2 : Bool) (he : e1 ≠ e2) :
    ((errorMsg compositeKey T (errorMsg compositeKey T st m e1 show1 []).1
        m e2 show2 []).1.messages
        = [(compositeKey m e1, 1), (compositeKey m e2, 1)] ∧
      compositeKey m e1 ≠ compositeKey m e2 ∧
      (errorMsg compositeKey T (errorMsg compositeKey T st m e1 show1 []).1
        m e2 show2 []).1.messages.length = 2 ∧
      errorTotalNumber (errorMsg compositeKey T (errorMsg compositeKey T st m e1 show1 []).1
        m e2 show2 []).1 = 2 ∧
      errorStatistics (errorMsg compositeKey T (errorMsg compositeKey T st m e1 show1 []).1
        m e2 show2 []).1 [] = [(compositeKey m e1, 1), (compositeKey m e2, 1)]) ∧
    (∀ m2 : String, m2 ≠ m →
      (errorMsg compositeKey T (errorMsg compositeKey T st m e1 show1 []).1
        m2 e2 show2 []).1.messages
        = [(compositeKey m e1, 1), (compositeKey m2 e2, 1)] ∧
      compositeKey m e1 ≠ compositeKey m2 e2) := by
  have hkey : compositeKey m e1 ≠ compositeKey m e2 :=
    fun h => he (compositeKey_injective m e1 m e2 h).2
  have hrec := errorMsg_two_records compositeKey T st hempty m e1 m e2 show1 show2 hkey
  refine ⟨⟨hrec, hkey, ?_, ?_, ?_⟩, ?_⟩
  · rw [hrec]
    rfl
  · rw [errorTotalNumber, hrec]
    rfl
  · rw [errorStatistics, hrec]
    rfl
  · intro m2 hm
    have hkey2 : compositeKey m e1 ≠ compositeKey m2 e2 :=
      fun h => hm (compositeKey_injective m e1 m2 e2 h).1.symm
    exact ⟨errorMsg_two_records compositeKey T st hempty m e1 m2 e2 show1 show2 hkey2, hkey2⟩

/-- The message "pT below cutoff" recorded on the all-zero storage with the
extra texts "ISR" and "FSR": two keys with count 1 each, total 2. -/
theorem errorMsg_composite_key_example :
    "ISR" ≠ "FSR" ∧
    (errorMsg compositeKey 1
      (errorMsg compositeKey 1 zeroMem "pT below cutoff" "ISR" false []).1
      "pT below cutoff" "FSR" false []).1.messages
        = [(compositeKey "pT below cutoff" "ISR", 1),
            (compositeKey "pT below cutoff" "FSR", 1)] ∧
    errorTotalNumber (errorMsg compositeKey 1
      (errorMsg compositeKey 1 zeroMem "pT below cutoff" "ISR" false []).1
      "pT below cutoff" "FSR" false []).1 = 2 :=
  ⟨by decide,
    (errorMsg_composite_key 1 zeroMem rfl "pT below cutoff" "ISR" "FSR" false false
      (by decide)).1.1,
    (errorMsg_composite_key 1 zeroMem rfl "pT below cutoff" "ISR" "FSR" false false
      (by decide)).1.2.2.2.1⟩

/-- C15: from every state, after `errorReset()` the message map is empty, so
the sum of the stored counts `errorTotalNumber()` is 0 and the report has no
line, and putting the old map back gives the old state (no other member
changes). -/
theorem errorReset_clears (st : Info D) :
    st.errorReset.messages = [] ∧
    errorTotalNumber st.errorReset = 0 ∧
    errorStatistics st.errorReset [] = [] ∧
    { st.errorReset with messages := st.messages } = st :=
  ⟨rfl, rfl, rfl, rfl⟩

/-! ## Event reset: names and independence of the past -/

/-- C16, as stated, fails: after `clear()` the process name is the one-blank
string, which is not the empty string; the same holds for the sub-process
name. -/
theorem clear_names_empty_false :
    ¬ (zeroMem.clear.name = "" ∧ zeroMem.clear.nameSub = "") := by
  decide

/-- C16, amended: from every state, after `clear()` both names are the
one-blank string: `name() == " "` and `nameSub() == " "`. -/
theorem clear_names [Zero D] [One D] (st : Info D) :
    st.clear.name = " " ∧ st.clear.nameSub = " " :=
  ⟨rfl, rfl⟩

/-- C17: for any two states, `clear()` of the first is `clear()` of the second
with the twenty members that are not current-event quantities (beam record,
`lowPTmin`, cross-section snapshot, `a0MISave`, counters, message map) taken
from the first; hence the two results agree on all twelve flags, eleven
integers, twenty-five floating-point members, both names and five vectors of
the current event, and the indexed event accessors return the same. -/
theorem clear_forgets [Zero D] [One D] (st1 st2 : Info D) :
    st1.clear =
      { st2.clear with
        idASave := st1.idASave, idBSave := st1.idBSave, pzASave := st1.pzASave
        eASave := st1.eASave, mASave := st1.mASave, pzBSave := st1.pzBSave
        eBSave := st1.eBSave, mBSave := st1.mBSave, eCMSave := st1.eCMSave
        sSave := st1.sSave, lowPTmin := st1.lowPTmin
        nTry := st1.nTry, nSel := st1.nSel, nAcc := st1.nAcc
        sigGen := st1.sigGen, sigErr := st1.sigErr, wtAccSum := st1.wtAccSum
        a0MISave := st1.a0MISave, counters := st1.counters, messages := st1.messages } ∧
    (∀ i : Int, st1.clear.eMI i = st2.clear.eMI i ∧ st1.clear.codeMI i = st2.clear.codeMI i ∧
      st1.clear.pTMI i = st2.clear.pTMI i ∧ st1.clear.iAMI i = st2.clear.iAMI i ∧
      st1.clear.iBMI i = st2.clear.iBMI i) ∧
    st1.clear.bMI = st2.clear.bMI ∧ st1.clear.enhanceMI = st2.clear.enhanceMI :=
  ⟨rfl, fun _ => ⟨rfl, rfl, rfl, rfl, rfl⟩, rfl, rfl⟩

/-! ## Process setters -/

/-- C18, as stated, fails: on a state with a sub-process set by
`setSubType("g g -> g g", 111, 2)`, a `setType` call changes `hasSub()` from
true to false and `codeSub()` from 111 to 0. -/
theorem setType_frame_false :
    ¬ (((zeroMem.setSubType "g g -> g g" 111 2).setType "minBias" 101 2
          true true false false false).hasSub
        = (zeroMem.setSubType "g g -> g g" 111 2).hasSub ∧
      ((zeroMem.setSubType "g g -> g g" 111 2).setType "minBias" 101 2
          true true false false false).codeSub
        = (zeroMem.setSubType "g g -> g g" 111 2).codeSub) := by
  decide

/-- C18, amended: from every state, `setType` stores its eight arguments in
`name()`, `code()`, `nFinal()` and the five flags, and besides them it stores
`nTotal = 2 + nFinal` and resets the sub-process and the impact and evolution
flags: afterwards `hasSub() == false`, `nameSub() == " "`, `codeSub() == 0`,
`nFinalSub() == 0`, `evolIsSet` is false and, `bIsSet` being false, `bMI()`,
`enhanceMI()` and `eMI(i)` return `1.`.  Putting the old values of these
fifteen members back gives the old state (no other member changes). -/
theorem setType_writes [One D] (st : Info D) (nameIn : String) (codeIn nFinalIn : Int)
    (isMinBiasIn isResolvedIn isDiffractiveAin isDiffractiveBin isLHAin : Bool) :
    ((st.setType nameIn codeIn nFinalIn isMinBiasIn isResolvedIn isDiffractiveAin
        isDiffractiveBin isLHAin).name = nameIn ∧
      (st.setType nameIn codeIn nFinalIn isMinBiasIn isResolvedIn isDiffractiveAin
        isDiffractiveBin isLHAin).code = codeIn ∧
      (st.setType nameIn codeIn nFinalIn isMinBiasIn isResolvedIn isDiffractiveAin
        isDiffractiveBin isLHAin).nFinal = nFinalIn ∧
      (st.setType nameIn codeIn nFinalIn isMinBiasIn isResolvedIn isDiffractiveAin
        isDiffractiveBin isLHAin).isMinBias = isMinBiasIn ∧
      (st.setType nameIn codeIn nFinalIn isMinBiasIn isResolvedIn isDiffractiveAin
        isDiffractiveBin isLHAin).isResolved = isResolvedIn ∧
      (st.setType nameIn codeIn nFinalIn isMinBiasIn isResolvedIn isDiffractiveAin
        isDiffractiveBin isLHAin).isDiffractiveA = isDiffractiveAin ∧
      (st.setType nameIn codeIn nFinalIn isMinBiasIn isResolvedIn isDiffractiveAin
        isDiffractiveBin isLHAin).isDiffractiveB = isDiffractiveBin ∧
      (st.setType nameIn codeIn nFinalIn isMinBiasIn isResolvedIn isDiffractiveAin
        isDiffractiveBin isLHAin).isLHA = isLHAin) ∧
    ((st.setType nameIn codeIn nFinalIn isMinBiasIn isResolvedIn isDiffractiveAin
        isDiffractiveBin isLHAin).nTotal = wrapInt (2 + nFinalIn) ∧
      (st.setType nameIn codeIn nFinalIn isMinBiasIn isResolvedIn isDiffractiveAin
        isDiffractiveBin isLHAin).hasSub = false ∧
      (st.setType nameIn codeIn nFinalIn isMinBiasIn isResolvedIn isDiffractiveAin
        isDiffractiveBin isLHAin).nameSub = " " ∧
      (st.setType nameIn codeIn nFinalIn isMinBiasIn isResolvedIn isDiffractiveAin
        isDiffractiveBin isLHAin).codeSub = 0 ∧
      (st.setType nameIn codeIn nFinalIn isMinBiasIn isResolvedIn isDiffractiveAin
        isDiffractiveBin isLHAin).nFinalSub = 0 ∧
      (st.setType nameIn codeIn nFinalIn isMinBiasIn isResolvedIn isDiffractiveAin
        isDiffractiveBin isLHAin).evolIsSet = false ∧
      (st.setType nameIn codeIn nFinalIn isMinBiasIn isResolvedIn isDiffractiveAin
        isDiffractiveBin isLHAin).bMI = 1 ∧
      (st.setType nameIn codeIn nFinalIn isMinBiasIn isResolvedIn isDiffractiveAin
        isDiffractiveBin isLHAin).enhanceMI = 1 ∧
      ∀ i : Int, (st.setType nameIn codeIn nFinalIn isMinBiasIn isResolvedIn
        isDiffractiveAin isDiffractiveBin isLHAin).eMI i = some 1) ∧
    { st.setType nameIn codeIn nFinalIn isMinBiasIn isResolvedIn isDiffractiveAin
        isDiffractiveBin isLHAin with
      nameSave := st.nameSave, codeSave := st.codeSave, nFinalSave := st.nFinalSave
      isMB := st.isMB, isRes := st.isRes, isDiffA := st.isDiffA, isDiffB := st.isDiffB
      isLH := st.isLH, nTotal := st.nTotal, bIsSet := st.bIsSet
      hasSubSave := st.hasSubSave, nameSubSave := st.nameSubSave
      codeSubSave := st.codeSubSave, nFinalSubSave := st.nFinalSubSave
      evolIsSet := st.evolIsSet } = st :=
  ⟨⟨rfl, rfl, rfl, rfl, rfl, rfl, rfl, rfl⟩,
    ⟨rfl, rfl, rfl, rfl, rfl, rfl, rfl, rfl, fun _ => rfl⟩, rfl⟩

/-- C19: from every state, after `setPDFalpha` the accessors `id1()`, `id2()`,
`pdf1()`, `pdf2()`, `Q2Fac()`, `alphaEM()`, `alphaS()`, `Q2Ren()` return the
arguments and putting the old eight values back gives the old state; after
`setKin` the ten accessors `x1()`, `x2()`, `sHat()`, `tHat()`, `uHat()`,
`pTHat()`, `m3Hat()`, `m4Hat()`, `thetaHat()`, `phiHat()` return the arguments
and putting the old ten values back gives the old state; the two setters
commute. -/
theorem setPDFalpha_setKin (st : Info D) (id1In id2In : Int)
    (pdf1In pdf2In Q2FacIn alphaEMIn alphaSIn Q2RenIn : D)
    (x1In x2In sHatIn tHatIn uHatIn pTHatIn m3HatIn m4HatIn thetaHatIn phiHatIn : D) :
    ((st.setPDFalpha id1In id2In pdf1In pdf2In Q2FacIn alphaEMIn alphaSIn Q2RenIn).id1
        = id1In ∧
      (st.setPDFalpha id1In id2In pdf1In pdf2In Q2FacIn alphaEMIn alphaSIn Q2RenIn).id2
        = id2In ∧
      (st.setPDFalpha id1In id2In pdf1In pdf2In Q2FacIn alphaEMIn alphaSIn Q2RenIn).pdf1
        = pdf1In ∧
      (st.setPDFalpha id1In id2In pdf1In pdf2In Q2FacIn alphaEMIn alphaSIn Q2RenIn).pdf2
        = pdf2In ∧
      (st.setPDFalpha id1In id2In pdf1In pdf2In Q2FacIn alphaEMIn alphaSIn Q2RenIn).Q2Fac
        = Q2FacIn ∧
      (st.setPDFalpha id1In id2In pdf1In pdf2In Q2FacIn alphaEMIn alphaSIn Q2RenIn).alphaEM
        = alphaEMIn ∧
      (st.setPDFalpha id1In id2In pdf1In pdf2In Q2FacIn alphaEMIn alphaSIn Q2RenIn).alphaS
        = alphaSIn ∧
      (st.setPDFalpha id1In id2In pdf1In pdf2In Q2FacIn alphaEMIn alphaSIn Q2RenIn).Q2Ren
        = Q2RenIn) ∧
    { st.setPDFalpha id1In id2In pdf1In pdf2In Q2FacIn alphaEMIn alphaSIn Q2RenIn with
      id1Save := st.id1Save, id2Save := st.id2Save, pdf1Save := st.pdf1Save
      pdf2Save := st.pdf2Save, Q2FacSave := st.Q2FacSave, alphaEMSave := st.alphaEMSave
      alphaSSave := st.alphaSSave, Q2RenSave := st.Q2RenSave } = st ∧
    ((st.setKin x1In x2In sHatIn tHatIn uHatIn pTHatIn m3HatIn m4HatIn thetaHatIn
        phiHatIn).x1 = x1In ∧
      (st.setKin x1In x2In sHatIn tHatIn uHatIn pTHatIn m3HatIn m4HatIn thetaHatIn
        phiHatIn).x2 = x2In ∧
      (st.setKin x1In x2In sHatIn tHatIn uHatIn pTHatIn m3HatIn m4HatIn thetaHatIn
        phiHatIn).sHat = sHatIn ∧
      (st.setKin x1In x2In sHatIn tHatIn uHatIn pTHatIn m3HatIn m4HatIn thetaHatIn
        phiHatIn).tHat = tHatIn ∧
      (st.setKin x1In x2In sHatIn tHatIn uHatIn pTHatIn m3HatIn m4HatIn thetaHatIn
        phiHatIn).uHat = uHatIn ∧
      (st.setKin x1In x2In sHatIn tHatIn uHatIn pTHatIn m3HatIn m4HatIn thetaHatIn
        phiHatIn).pTHat = pTHatIn ∧
      (st.setKin x1In x2In sHatIn tHatIn uHatIn pTHatIn m3HatIn m4HatIn thetaHatIn
        phiHatIn).m3Hat = m3HatIn ∧
      (st.setKin x1In x2In sHatIn tHatIn uHatIn pTHatIn m3HatIn m4HatIn thetaHatIn
        phiHatIn).m4Hat = m4HatIn ∧
      (st.setKin x1In x2In sHatIn tHatIn uHatIn pTHatIn m3HatIn m4HatIn thetaHatIn
        phiHatIn).thetaHat = thetaHatIn ∧
      (st.setKin x1In x2In sHatIn tHatIn uHatIn pTHatIn m3HatIn m4HatIn thetaHatIn
        phiHatIn).phiHat = phiHatIn) ∧
    { st.setKin x1In x2In sHatIn tHatIn uHatIn pTHatIn m3HatIn m4HatIn thetaHatIn phiHatIn with
      x1Save := st.x1Save, x2Save := st.x2Save, sH := st.sH, tH := st.tH, uH := st.uH
      pTH := st.pTH, m3H := st.m3H, m4H := st.m4H, thetaH := st.thetaH
      phiH := st.phiH } = st ∧
    (st.setPDFalpha id1In id2In pdf1In pdf2In Q2FacIn alphaEMIn alphaSIn Q2RenIn).setKin
        x1In x2In sHatIn tHatIn uHatIn pTHatIn m3HatIn m4HatIn thetaHatIn phiHatIn
      = (st.setKin x1In x2In sHatIn tHatIn uHatIn pTHatIn m3HatIn m4HatIn thetaHatIn
          phiHatIn).setPDFalpha id1In id2In pdf1In pdf2In Q2FacIn alphaEMIn alphaSIn Q2RenIn :=
  ⟨⟨rfl, rfl, rfl, rfl, rfl, rfl, rfl, rfl⟩, rfl,
    ⟨rfl, rfl, rfl, rfl, rfl, rfl, rfl, rfl, rfl, rfl⟩, rfl, rfl⟩

/-- C20, evaluated on the code: on the state produced by `clear()` the vector
`eMISave` is empty, so the write `eMISave[0] = enhanceMIIn` of `setImpact` is
outside the bounds; the call has no defined result, for every `(b, e)` and in
particular for `setImpact(4, 5)` after `clear()` on the all-zero storage. -/
theorem setImpact_after_clear [Zero D] [One D] :
    (∀ (st : Info D) (b e : D), st.clear.eMISave.length = 0 ∧ st.clear.setImpact b e = none) ∧
    zeroMem.clear.setImpact 4 5 = none :=
  ⟨fun _ _ _ => ⟨rfl, rfl⟩, rfl⟩

/-! ## Common length of the MPI vectors -/

theorem vecAt_isSome {α : Type} (v : List α) (i : Int) :
    (vecAt v i).isSome = true ↔ 0 ≤ i ∧ i.toNat < v.length := by
  unfold vecAt
  split
  · rename_i h
    rw [Option.isSome_iff_exists]
    constructor
    · rintro ⟨a, ha⟩
      exact ⟨h, (List.getElem?_eq_some.mp ha).1⟩
    · rintro ⟨-, hlt⟩
      exact ⟨v[i.toNat], List.getElem?_eq_getElem hlt⟩
  · rename_i h
    simp [h]

/-- Every call keeps the five MPI vectors at one common length. -/
theorem step_sameLengthMI [Zero D] [One D] [Mul D] (key : String → String → String) (T : Int)
    (op : Op D) (st st' : Info D) (hinv : sameLengthMI st)
    (h : step key T op st = some st') : sameLengthMI st' := by
  cases op with
  | setCounter i value =>
    simp only [step, setCounter] at h
    split at h
    · cases h; exact hinv
    · cases h
  | addCounter i value =>
    simp only [step, addCounter] at h
    split at h
    · cases h; exact hinv
    · cases h
  | errorMsg messageIn extraIn showAlways =>
    simp only [step, errorMsg, Option.some.injEq] at h
    subst h
    split <;> exact hinv
  | setImpact b e =>
    simp only [step, setImpact, vecSet] at h
    split at h
    · cases h
    · rename_i v hv
      split at hv
      · cases hv
        cases h
        obtain ⟨h1, h2, h3, h4⟩ := hinv
        exact ⟨h1, h2, h3, by simpa using h4⟩
      · cases hv
  | clear =>
    cases h
    exact ⟨rfl, rfl, rfl, rfl⟩
  | setTypeMI c p a b e =>
    cases h
    obtain ⟨h1, h2, h3, h4⟩ := hinv
    simp only [sameLengthMI, setTypeMI, List.length_append, List.length_singleton]
    omega
  | _ => cases h; exact hinv

theorem run_sameLengthMI [Zero D] [One D] [Mul D] (key : String → String → String) (T : Int)
    (ops : List (Op D)) (st st' : Info D) (hinv : sameLengthMI st)
    (h : run key T ops st = some st') : sameLengthMI st' := by
  induction ops generalizing st with
  | nil =>
    simp only [run, Option.some.injEq] at h
    rw [← h]
    exact hinv
  | cons op ops ih =>
    simp only [run] at h
    cases hs : step key T op st with
    | none => rw [hs] at h; cases h
    | some st1 =>
      rw [hs, Option.some_bind] at h
      exact ih st1 (step_sameLengthMI key T op st st1 hinv hs) h

/-- C21: in every state reached from `clear()` by a sequence of calls of the
class's state-changing member functions, the five vectors `codeMISave`,
`pTMISave`, `iAMISave`, `iBMISave`, `eMISave` have the same length, so for
every integer `i` the element accesses of `codeMI(i)`, `pTMI(i)`, `iAMI(i)`,
`iBMI(i)` and of `eMI(i)` (on `eMISave`) are inside the bounds together or not
at all, and `eMI(i)` has a result wherever `codeMI(i)` has one. -/
theorem mpi_vectors_same_length [Zero D] [One D] [Mul D] (key : String → String → String)
    (T : Int) (ops : List (Op D)) (st st' : Info D)
    (h : run key T ops st.clear = some st') :
    sameLengthMI st' ∧
    (∀ i : Int,
      (st'.pTMI i).isSome = (st'.codeMI i).isSome ∧
      (st'.iAMI i).isSome = (st'.codeMI i).isSome ∧
      (st'.iBMI i).isSome = (st'.codeMI i).isSome ∧
      (vecAt st'.eMISave i).isSome = (st'.codeMI i).isSome ∧
      ((st'.codeMI i).isSome = true → (st'.eMI i).isSome = true)) := by
  have hinv : sameLengthMI st' :=
    run_sameLengthMI key T ops st.clear st' ⟨rfl, rfl, rfl, rfl⟩ h
  refine ⟨hinv, fun i => ?_⟩
  obtain ⟨h1, h2, h3, h4⟩ := hinv
  have hiff : ∀ {α β : Type} (v : List α) (w : List β), v.length = w.length →
      (vecAt v i).isSome = (vecAt w i).isSome := by
    intro α β v w hvw
    rw [Bool.eq_iff_iff, vecAt_isSome, vecAt_isSome, hvw]
  refine ⟨hiff _ _ h1, hiff _ _ h2, hiff _ _ h3, hiff _ _ h4, ?_⟩
  intro hc
  unfold eMI
  split
  · rw [hiff _ _ h4]
    exact hc
  · rfl

/-- The sample event, run after `clear()` on the all-zero storage, ends in a
state whose five MPI vectors all have length 1. -/
theorem mpi_vectors_same_length_example :
    ∃ st', run (fun m e => m ++ e) 1 sampleEvent zeroMem.clear = some st' ∧
      sameLengthMI st' ∧ st'.codeMISave.length = 1 ∧ (st'.eMI 0).isSome = true :=
  ⟨_, rfl,
    (mpi_vectors_same_length (fun m e => m ++ e) 1 sampleEvent zeroMem _ rfl).1, rfl, rfl⟩

end Info

end Pythia8
